import Mathlib

/-!
Verification of the `TTSManager` orchestration logic from
`src/release/2.0/lib/tts_manager.py` (the SpeechPlaybackOrchestrator of the
specification).

The Python class is shallowly embedded as explicit state passing over a
`World` record.  The world holds the in-memory manager state (`voice`,
`enabled`, `is_playing`, `_temp_files`), a model of the filesystem (an
association list from path to file size in bytes), scripts of outcomes for
the two external capabilities (edge-tts synthesis and the pygame mixer), the
number of invocations made on each capability, the set of paths whose
deletion fails at the OS level, and a trace of the sleep durations (in
milliseconds) performed while polling the playback device.

Python exceptions are modelled by the `Except String` component of each
operation result: an operation returns `(Except.error msg, w)` when the
corresponding Python call raises, with `w` the world at the moment of the
raise.  A `try/except` block in the source becomes a `match` on that
component.
-/

/-- Outcome of one invocation of the synthesis capability
(`edge_tts.Communicate(...).save(path)`): either the save raises, or it
returns normally having written `n` bytes to the requested path
(`n = 0` models a save that returned but produced an empty file). -/
inductive SynthOutcome where
  | raises
  | writes (n : Nat)
deriving DecidableEq, Repr

/-- Outcome of one playback request on the mixer
(`pygame.mixer.music.load` followed by `play`): either a device-level error
is raised, or loading and playback start and `get_busy()` reports busy for
exactly `busyPolls` consecutive polls before reporting idle. -/
inductive PlayOutcome where
  | deviceError
  | ok (busyPolls : Nat)
deriving DecidableEq, Repr

/-- Outcome of `pygame.mixer.init(...)` during construction. -/
inductive InitOutcome where
  | succeeds
  | fails
deriving DecidableEq, Repr

/-- The in-memory state of a `TTSManager` instance: fields `voice`,
`enabled`, `is_playing` and `_temp_files` of the Python object.
`temp_files` is the `pendingArtifacts` set of the specification. -/
structure MgrState where
  voice : String
  enabled : Bool
  is_playing : Bool
  temp_files : List String
deriving DecidableEq, Repr

/-- The whole world an execution acts on: the filesystem (path, size) pairs,
the manager state, the capability outcome scripts together with invocation
counters, the paths whose `os.unlink` fails with an OS error even though the
file exists, and the recorded sleep durations of busy-wait polling. -/
structure World where
  fs : List (String × Nat)
  mgr : MgrState
  synthCalls : Nat
  synthOut : List SynthOutcome
  playCalls : Nat
  playOut : List PlayOutcome
  unlinkFails : List String
  sleeps : List Nat
deriving DecidableEq, Repr

/-- Does a file exist at path `p`? (`os.path.exists`). -/
def fsExists (fs : List (String × Nat)) (p : String) : Bool :=
  fs.any (fun e => e.1 == p)

/-- Size of the file at `p`, defaulting to 0 when absent
(`os.path.getsize`, only consulted under an existence guard in the source). -/
def fsSizeD (fs : List (String × Nat)) (p : String) : Nat :=
  ((fs.find? (fun e => e.1 == p)).map (fun e => e.2)).getD 0

/-- Create or truncate the file at `p` to hold `n` bytes. -/
def fsSet (fs : List (String × Nat)) (p : String) (n : Nat) : List (String × Nat) :=
  (p, n) :: fs.filter (fun e => e.1 != p)

/-- Remove the file at `p`. -/
def fsRemove (fs : List (String × Nat)) (p : String) : List (String × Nat) :=
  fs.filter (fun e => e.1 != p)

/-- Python `not text.strip()`: true exactly when the text is empty or
consists only of whitespace characters. -/
def stripIsEmpty (text : String) : Bool :=
  text.toList.all (fun c => c.isWhitespace)

/-- `os.unlink p`: raises `FileNotFoundError` when the file is absent,
raises an OS error (for example `PermissionError`) when the path is in the
worlds `unlinkFails` set, and otherwise deletes the file. -/
def osUnlink (p : String) (w : World) : Except String Unit × World :=
  if fsExists w.fs p = false then (Except.error "FileNotFoundError", w)
  else if p ∈ w.unlinkFails then (Except.error "PermissionError", w)
  else (Except.ok (), { w with fs := fsRemove w.fs p })

/-- One invocation of the synthesis capability
(`await communicate.save(temp_path)` in `_synthesize_async`).  Consumes the
head of the `synthOut` script and counts the invocation; on `raises` the
save raises, on `writes n` it writes `n` bytes at the requested path.  An
exhausted script behaves like `raises`. -/
def capSave (text voice p : String) (w : World) : Except String Unit × World :=
  match w.synthOut.headD SynthOutcome.raises with
  | SynthOutcome.raises =>
      (Except.error "edge-tts save failed",
       { w with synthCalls := w.synthCalls + 1, synthOut := w.synthOut.tail })
  | SynthOutcome.writes n =>
      (Except.ok (),
       { w with synthCalls := w.synthCalls + 1, synthOut := w.synthOut.tail,
                fs := fsSet w.fs p n })

/-- One playback request on the mixer (`pygame.mixer.music.load(file_path)`
then `play()` in `_play_audio_sync`).  Consumes the head of the `playOut`
script and counts the invocation; on `deviceError` loading raises, on
`ok k` it returns the number of polls for which `get_busy()` will report
busy.  An exhausted script behaves like `deviceError`. -/
def mixerLoadPlay (p : String) (w : World) : Except String Nat × World :=
  match w.playOut.headD PlayOutcome.deviceError with
  | PlayOutcome.deviceError =>
      (Except.error "pygame load or play failed",
       { w with playCalls := w.playCalls + 1, playOut := w.playOut.tail })
  | PlayOutcome.ok k =>
      (Except.ok k,
       { w with playCalls := w.playCalls + 1, playOut := w.playOut.tail })

/-- The busy-wait loop `while pygame.mixer.music.get_busy(): time.sleep(0.1)`:
one `sleep(0.1)` (recorded as 100 ms) per poll that reported busy. -/
def busyWait : Nat → World → World
  | 0, w => w
  | Nat.succ k, w => busyWait k { w with sleeps := w.sleeps ++ [100] }

/-- `TTSManager.__init__(voice, enabled)`: stores the configuration with an
empty temp-file list and, when enabled, attempts `pygame.mixer.init`; on an
init failure the exception is caught and `enabled` is downgraded to false.
Construction is a total function: it never propagates an exception. -/
def construct (voice : String) (enabled : Bool) (initOut : InitOutcome) : MgrState :=
  let base : MgrState :=
    { voice := voice, enabled := enabled, is_playing := false, temp_files := [] }
  if enabled then
    match initOut with
    | InitOutcome.succeeds => base
    | InitOutcome.fails => { base with enabled := false }
  else base

/-- `TTSManager._synthesize_async(text)`: returns `none` for blank text;
otherwise creates the named temporary file (size 0, `delete=False`), runs
the synthesis capability, appends the path to `_temp_files`, and returns the
path only when the file exists and is non-empty.  Any exception inside the
try block (the capability raising) is caught and turned into `none`.
Note that the append to `_temp_files` in the source (line 74) precedes the
existence and size check (line 76); both branches of that check therefore
carry the appended list. -/
def synthesize_async (text freshPath : String) (w : World) :
    Except String (Option String) × World :=
  if stripIsEmpty text then (Except.ok none, w)
  else
    match capSave text w.mgr.voice freshPath { w with fs := fsSet w.fs freshPath 0 } with
    | (Except.error _, w2) => (Except.ok none, w2)
    | (Except.ok _, w2) =>
        if fsExists w2.fs freshPath = true ∧ 0 < fsSizeD w2.fs freshPath then
          (Except.ok (some freshPath),
           { w2 with mgr := { w2.mgr with temp_files := w2.mgr.temp_files ++ [freshPath] } })
        else
          (Except.ok none,
           { w2 with mgr := { w2.mgr with temp_files := w2.mgr.temp_files ++ [freshPath] } })

/-- `TTSManager._play_audio_sync(file_path)`: false when the file does not
exist; otherwise loads and plays, polling at 100 ms until the device is no
longer busy, and returns true.  Every device-level exception is caught and
turned into false; the function never raises. -/
def play_audio_sync (p : String) (w : World) : Except String Bool × World :=
  if fsExists w.fs p = false then (Except.ok false, w)
  else
    match mixerLoadPlay p w with
    | (Except.error _, w2) => (Except.ok false, w2)
    | (Except.ok k, w2) => (Except.ok true, busyWait k w2)

/-- `TTSManager._play_audio_thread(file_path)` (the PlayAndCleanup worker):
sets `is_playing`, runs synchronous playback, then best-effort cleanup
(when the path is tracked: unlink, and only if the unlink did not raise,
remove the path from `_temp_files`), and finally clears `is_playing`. -/
def play_audio_thread (p : String) (w : World) : Except String Unit × World :=
  match play_audio_sync p { w with mgr := { w.mgr with is_playing := true } } with
  | (Except.error e, w2) => (Except.error e, w2)
  | (Except.ok _success, w2) =>
      if p ∈ w2.mgr.temp_files then
        match osUnlink p w2 with
        | (Except.error _, w3) =>
            (Except.ok (), { w3 with mgr := { w3.mgr with is_playing := false } })
        | (Except.ok _, w3) =>
            (Except.ok (),
             { w3 with mgr := { w3.mgr with temp_files := w3.mgr.temp_files.erase p,
                                            is_playing := false } })
      else (Except.ok (), { w2 with mgr := { w2.mgr with is_playing := false } })

/-- The gate of `TTSManager.speak_async(text)`: the call spawns a worker
thread exactly when the manager is enabled, the text is not blank, and no
playback is in progress (`is_playing` is false).  The call itself returns
immediately and mutates nothing. -/
def speak_async_spawns (text : String) (w : World) : Bool :=
  if w.mgr.enabled = false ∨ stripIsEmpty text = true then false
  else if w.mgr.is_playing then false
  else true

/-- The body of the `tts_worker` thread spawned by `speak_async`: runs the
synthesis step and returns the audio path for which a playback thread is
then spawned (`none` means no playback thread).  Any exception is caught
inside the worker. -/
def tts_worker (text freshPath : String) (w : World) :
    Except String (Option String) × World :=
  match synthesize_async text freshPath w with
  | (Except.error _, w2) => (Except.ok none, w2)
  | (Except.ok r, w2) => (Except.ok r, w2)

/-- Lines 195 to 205 of `TTSManager.speak_sync`, reached with a synthesized
artifact path: synchronous playback, then the best-effort deletion block
(`os.unlink` first; only if the unlink did not raise, removal of the path
from `_temp_files`; any exception swallowed), returning the playback
result.  An exception escaping `_play_audio_sync` would be caught by the
outer handler of `speak_sync` and turn into false. -/
def speak_sync_play_and_delete (path : String) (w1 : World) :
    Except String Bool × World :=
  match play_audio_sync path w1 with
  | (Except.error _, w2) => (Except.ok false, w2)
  | (Except.ok success, w2) =>
      match osUnlink path w2 with
      | (Except.error _, w3) => (Except.ok success, w3)
      | (Except.ok _, w3) =>
          if path ∈ w3.mgr.temp_files then
            (Except.ok success,
             { w3 with mgr :=
                { w3.mgr with temp_files := w3.mgr.temp_files.erase path } })
          else (Except.ok success, w3)

/-- `TTSManager.speak_sync(text)`: false for a disabled manager or blank
text; otherwise synthesis, then on success synchronous playback followed by
best-effort deletion, returning the playback result. -/
def speak_sync (text freshPath : String) (w : World) : Except String Bool × World :=
  if w.mgr.enabled = false ∨ stripIsEmpty text = true then (Except.ok false, w)
  else
    match synthesize_async text freshPath w with
    | (Except.error _, w1) => (Except.ok false, w1)
    | (Except.ok none, w1) => (Except.ok false, w1)
    | (Except.ok (some path), w1) => speak_sync_play_and_delete path w1

/-- The body of the `for temp_file in self._temp_files` loop in
`TTSManager.cleanup`: inside a try/except that swallows everything, delete
the file if it exists.  Whether the unlink raised or returned, the loop
continues with the world the unlink left behind, so both outcomes yield
`(osUnlink p w).2`. -/
def cleanupStep (p : String) (w : World) : World :=
  if fsExists w.fs p then (osUnlink p w).2 else w

/-- The sweep over the tracked paths in `TTSManager.cleanup`. -/
def cleanupSweep : List String → World → World
  | [], w => w
  | p :: rest, w => cleanupSweep rest (cleanupStep p w)

/-- `TTSManager.cleanup()`: best-effort deletion of every tracked file,
then `self._temp_files.clear()`.  Never raises. -/
def cleanup (w : World) : Except String Unit × World :=
  let w1 := cleanupSweep w.mgr.temp_files w
  (Except.ok (), { w1 with mgr := { w1.mgr with temp_files := [] } })

/-! ### Helper lemmas about the filesystem model -/

theorem fsExists_fsSet_self (fs : List (String × Nat)) (p : String) (n : Nat) :
    fsExists (fsSet fs p n) p = true := by
  simp [fsExists, fsSet]

theorem fsSizeD_fsSet_self (fs : List (String × Nat)) (p : String) (n : Nat) :
    fsSizeD (fsSet fs p n) p = n := by
  simp [fsSizeD, fsSet, List.find?]

theorem fsExists_fsRemove_self (fs : List (String × Nat)) (p : String) :
    fsExists (fsRemove fs p) p = false := by
  simp only [fsExists, List.any_eq_false]
  intro e he
  rw [fsRemove, List.mem_filter] at he
  simpa using he.2

theorem fsExists_fsRemove_le (fs : List (String × Nat)) (q p : String)
    (h : fsExists (fsRemove fs q) p = true) : fsExists fs p = true := by
  simp only [fsExists, fsRemove, List.any_eq_true, List.mem_filter] at h ⊢
  obtain ⟨e, ⟨he, _⟩, hq⟩ := h
  exact ⟨e, he, hq⟩

theorem erase_append_singleton_of_not_mem {l : List String} {p : String}
    (h : p ∉ l) : (l ++ [p]).erase p = l := by
  induction l with
  | nil => simp
  | cons a t ih =>
      simp only [List.mem_cons, not_or] at h
      have hne : ¬ (a == p) = true := by
        simp only [beq_iff_eq]
        exact fun hh => h.1 hh.symm
      rw [List.cons_append, List.erase_cons, if_neg hne, ih h.2]

/-! ### Helper lemmas about the primitive operations -/

theorem osUnlink_ok {w : World} {p : String} (hex : fsExists w.fs p = true)
    (hdel : p ∉ w.unlinkFails) :
    osUnlink p w = (Except.ok (), { w with fs := fsRemove w.fs p }) := by
  rw [osUnlink, if_neg (by simp [hex]), if_neg hdel]

theorem osUnlink_snd_mgr (p : String) (w : World) : (osUnlink p w).2.mgr = w.mgr := by
  unfold osUnlink; split <;> try rfl
  split <;> rfl

theorem osUnlink_snd_unlinkFails (p : String) (w : World) :
    (osUnlink p w).2.unlinkFails = w.unlinkFails := by
  unfold osUnlink; split <;> try rfl
  split <;> rfl

theorem fsExists_osUnlink_le (p q : String) (w : World)
    (h : fsExists (osUnlink p w).2.fs q = true) : fsExists w.fs q = true := by
  unfold osUnlink at h
  split at h
  · exact h
  · split at h
    · exact h
    · exact fsExists_fsRemove_le _ _ _ h

theorem busyWait_mgr (k : Nat) (w : World) : (busyWait k w).mgr = w.mgr := by
  induction k generalizing w with
  | zero => rfl
  | succ m ih => simp [busyWait, ih]

theorem busyWait_fs (k : Nat) (w : World) : (busyWait k w).fs = w.fs := by
  induction k generalizing w with
  | zero => rfl
  | succ m ih => simp [busyWait, ih]

theorem busyWait_unlinkFails (k : Nat) (w : World) :
    (busyWait k w).unlinkFails = w.unlinkFails := by
  induction k generalizing w with
  | zero => rfl
  | succ m ih => simp [busyWait, ih]

theorem busyWait_sleeps (k : Nat) (w : World) :
    (busyWait k w).sleeps = w.sleeps ++ List.replicate k 100 := by
  induction k generalizing w with
  | zero => simp [busyWait]
  | succ m ih => simp [busyWait, ih, List.replicate_succ]

/-! ### Characterization of the synthesis step -/

theorem synthesize_async_blank {text : String} (freshPath : String) (w : World)
    (h : stripIsEmpty text = true) :
    synthesize_async text freshPath w = (Except.ok none, w) := by
  simp [synthesize_async, h]

theorem synthesize_async_raises {text : String} (freshPath : String) (w : World)
    (hne : stripIsEmpty text = false)
    (hh : w.synthOut.headD SynthOutcome.raises = SynthOutcome.raises) :
    synthesize_async text freshPath w =
      (Except.ok none,
       { w with fs := fsSet w.fs freshPath 0,
                synthCalls := w.synthCalls + 1, synthOut := w.synthOut.tail }) := by
  simp only [synthesize_async, hne, Bool.false_eq_true, if_false, capSave]
  rw [hh]

theorem synthesize_async_writes {text : String} (freshPath : String) (w : World) {n : Nat}
    (hne : stripIsEmpty text = false)
    (hh : w.synthOut.headD SynthOutcome.raises = SynthOutcome.writes n) :
    synthesize_async text freshPath w =
      (Except.ok (if 0 < n then some freshPath else none),
       { w with fs := fsSet (fsSet w.fs freshPath 0) freshPath n,
                synthCalls := w.synthCalls + 1, synthOut := w.synthOut.tail,
                mgr := { w.mgr with temp_files := w.mgr.temp_files ++ [freshPath] } }) := by
  simp only [synthesize_async, hne, Bool.false_eq_true, if_false, capSave]
  rw [hh]
  simp only [fsExists_fsSet_self, fsSizeD_fsSet_self, true_and]
  by_cases hn : 0 < n
  · rw [if_pos hn, if_pos hn]
  · rw [if_neg hn, if_neg hn]

/-! ### Characterization of the playback step -/

theorem play_audio_sync_missing {p : String} {w : World}
    (h : fsExists w.fs p = false) :
    play_audio_sync p w = (Except.ok false, w) := by
  simp [play_audio_sync, h]

theorem play_audio_sync_device_error {p : String} {w : World}
    (hex : fsExists w.fs p = true)
    (hh : w.playOut.headD PlayOutcome.deviceError = PlayOutcome.deviceError) :
    play_audio_sync p w =
      (Except.ok false, { w with playCalls := w.playCalls + 1, playOut := w.playOut.tail }) := by
  simp only [play_audio_sync, hex, Bool.true_eq_false, if_false, mixerLoadPlay]
  rw [hh]

theorem play_audio_sync_plays {p : String} {w : World} {k : Nat}
    (hex : fsExists w.fs p = true)
    (hh : w.playOut.headD PlayOutcome.deviceError = PlayOutcome.ok k) :
    play_audio_sync p w =
      (Except.ok true,
       busyWait k { w with playCalls := w.playCalls + 1, playOut := w.playOut.tail }) := by
  simp only [play_audio_sync, hex, Bool.true_eq_false, if_false, mixerLoadPlay]
  rw [hh]

/-- `_play_audio_sync` never raises and only touches the playback counter,
the playback script and the sleep trace of the world. -/
theorem play_audio_sync_world (p : String) (w : World) :
    (play_audio_sync p w).1.isOk = true ∧
    (play_audio_sync p w).2.mgr = w.mgr ∧
    (play_audio_sync p w).2.fs = w.fs ∧
    (play_audio_sync p w).2.unlinkFails = w.unlinkFails := by
  by_cases hex : fsExists w.fs p = true
  · cases hh : w.playOut.headD PlayOutcome.deviceError with
    | deviceError => rw [play_audio_sync_device_error hex hh]; exact ⟨rfl, rfl, rfl, rfl⟩
    | ok k =>
        rw [play_audio_sync_plays hex hh]
        exact ⟨rfl, by rw [busyWait_mgr], by rw [busyWait_fs], by rw [busyWait_unlinkFails]⟩
  · rw [play_audio_sync_missing (Bool.not_eq_true _ ▸ hex)]
    exact ⟨rfl, rfl, rfl, rfl⟩

/-! ### Concrete worlds used as inputs for the closed theorems -/

/-- The manager state produced by default construction with a working mixer. -/
def mgr0 : MgrState := construct "ru-RU-DariyaNeural" true InitOutcome.succeeds

/-- An initial world: empty filesystem, default manager, given capability
outcome scripts and set of undeletable paths, no calls made yet. -/
def mkW (so : List SynthOutcome) (po : List PlayOutcome) (uf : List String) : World :=
  { fs := [], mgr := mgr0, synthCalls := 0, synthOut := so, playCalls := 0,
    playOut := po, unlinkFails := uf, sleeps := [] }

/-! ### Claim C1 -/

/-- Claim C1 (code bug): with a synthesis capability that always fails (the
save raises), `speak_sync "hello"` does return false and registers nothing
in `_temp_files`, but it does NOT leave the disk clean: the temporary file
allocated before the save remains on disk (zero bytes), it is tracked
nowhere, and even a subsequent `cleanup` sweep does not delete it.  The
specification says no residual temp file is left. -/
theorem speak_sync_synth_raises_leaves_orphan_tempfile :
    (speak_sync "hello" "t.mp3" (mkW [SynthOutcome.raises] [] [])).1 = Except.ok false ∧
    fsExists (speak_sync "hello" "t.mp3" (mkW [SynthOutcome.raises] [] [])).2.fs "t.mp3" = true ∧
    fsSizeD (speak_sync "hello" "t.mp3" (mkW [SynthOutcome.raises] [] [])).2.fs "t.mp3" = 0 ∧
    (speak_sync "hello" "t.mp3" (mkW [SynthOutcome.raises] [] [])).2.mgr.temp_files = [] ∧
    fsExists (cleanup (speak_sync "hello" "t.mp3" (mkW [SynthOutcome.raises] [] [])).2).2.fs
      "t.mp3" = true :=
  ⟨rfl, by decide, by decide, by decide, by decide⟩

/-! ### Claim C2 -/

/-- Claim C2, counterexample: a synthesis capability that returns normally
but writes a zero-byte file.  The step reports "no result" (`none`), yet
the path HAS been added to `_temp_files`, contrary to the claim that a path
is registered only after verifying the output is non-empty. -/
theorem synthesize_zero_byte_registers_path :
    (synthesize_async "hello" "t.mp3" (mkW [SynthOutcome.writes 0] [] [])).1 =
      Except.ok none ∧
    "t.mp3" ∈ (synthesize_async "hello" "t.mp3"
      (mkW [SynthOutcome.writes 0] [] [])).2.mgr.temp_files :=
  ⟨rfl, by decide⟩

/-- Claim C2, amended: the synthesis step registers the path in
`_temp_files` exactly when the save returned without raising — before, not
after, the non-emptiness verification — so a zero-byte output does add a
path; when the save raises, nothing is registered; and a returned path is
always registered and names an existing non-empty file. -/
theorem synthesize_registration_characterization (text freshPath : String) (w : World)
    (hne : stripIsEmpty text = false) :
    (w.synthOut.headD SynthOutcome.raises = SynthOutcome.raises →
       (synthesize_async text freshPath w).2.mgr.temp_files = w.mgr.temp_files) ∧
    (∀ n, w.synthOut.headD SynthOutcome.raises = SynthOutcome.writes n →
       (synthesize_async text freshPath w).2.mgr.temp_files =
         w.mgr.temp_files ++ [freshPath]) ∧
    (∀ p, (synthesize_async text freshPath w).1 = Except.ok (some p) →
       p = freshPath ∧
       p ∈ (synthesize_async text freshPath w).2.mgr.temp_files ∧
       fsExists (synthesize_async text freshPath w).2.fs p = true ∧
       0 < fsSizeD (synthesize_async text freshPath w).2.fs p) := by
  refine ⟨?_, ?_, ?_⟩
  · intro hh
    rw [synthesize_async_raises freshPath w hne hh]
  · intro n hh
    rw [synthesize_async_writes freshPath w hne hh]
  · intro p hp
    cases hh : w.synthOut.headD SynthOutcome.raises with
    | raises =>
        rw [synthesize_async_raises freshPath w hne hh] at hp
        exact absurd hp (by simp)
    | writes n =>
        rw [synthesize_async_writes freshPath w hne hh] at hp ⊢
        by_cases hn : 0 < n
        · rw [if_pos hn] at hp
          simp only [Except.ok.injEq, Option.some.injEq] at hp
          subst hp
          refine ⟨rfl, by simp, fsExists_fsSet_self _ _ _, ?_⟩
          rw [fsSizeD_fsSet_self]
          exact hn
        · rw [if_neg hn] at hp
          exact absurd hp (by simp)

/-- Witness for the amended claim C2 at concrete inputs. -/
theorem synthesize_registration_characterization_witness :
    (synthesize_async "hello" "t.mp3" (mkW [SynthOutcome.writes 7] [] [])).2.mgr.temp_files =
      mgr0.temp_files ++ ["t.mp3"] :=
  (synthesize_registration_characterization "hello" "t.mp3"
      (mkW [SynthOutcome.writes 7] [] []) (by decide)).2.1 7 (by decide)

/-! ### Claim C3 -/

/-- Two `speak_async` calls in rapid succession: both calls arrive (and
evaluate their gate) before either spawned worker thread gets scheduled, a
legal interleaving of the daemon threads.  Each call whose gate passed then
runs its worker (the synthesis step). -/
def twoRapidCalls (w : World) : World :=
  let g1 := speak_async_spawns "hello" w
  let g2 := speak_async_spawns "hello" w
  let w1 := if g1 then (tts_worker "hello" "p1.mp3" w).2 else w
  let w2 := if g2 then (tts_worker "hello" "p2.mp3" w1).2 else w1
  w2

/-- Claim C3, counterexample: when the second `speak_async` call arrives
while the first request is still in flight but playback has not started yet
(`is_playing` is still false, since only the playback thread sets it), the
second call is NOT dropped: the synthesis capability is invoked twice, not
once. -/
theorem two_rapid_speak_async_calls_synthesize_twice :
    (twoRapidCalls (mkW [SynthOutcome.writes 9, SynthOutcome.writes 9] [] [])).synthCalls
        = 2 ∧
    ¬ (twoRapidCalls (mkW [SynthOutcome.writes 9, SynthOutcome.writes 9] [] [])).synthCalls
        = 1 :=
  ⟨rfl, by decide⟩

/-- Claim C3, amended: a `speak_async` call is dropped (its gate refuses to
spawn a worker, so no synthesis and no playback activity is produced by it)
exactly while `is_playing` is true, that is while a previously spawned
playback worker is running; the drop guarantee does not extend to the
window in which the previous request is still synthesizing, where a second
call does invoke the synthesis capability again (see the concrete two-call
interleaving, in which the count rises to 2). -/
theorem speak_async_dropped_only_while_playing (text : String) (w : World) :
    (w.mgr.is_playing = true → speak_async_spawns text w = false) ∧
    (twoRapidCalls (mkW [SynthOutcome.writes 9, SynthOutcome.writes 9] [] [])).synthCalls
        = 2 := by
  constructor
  · intro h
    unfold speak_async_spawns
    rw [h]
    split <;> rfl
  · rfl

/-- Witness for the amended claim C3: in a world where playback is in
progress, a new `speak_async` call spawns nothing. -/
theorem speak_async_dropped_only_while_playing_witness :
    speak_async_spawns "hello"
      { mkW [] [] [] with mgr := { mgr0 with is_playing := true } } = false :=
  (speak_async_dropped_only_while_playing "hello"
      { mkW [] [] [] with mgr := { mgr0 with is_playing := true } }).1 rfl

/-! ### Claim C7 -/

/-- Claim C7: for blank text (empty or whitespace-only), whatever the
enabled flag, and for a disabled manager, whatever the text, `speak_async`
spawns nothing and `speak_sync` returns false, with the world — in
particular both capability invocation counters and the filesystem —
completely unchanged. -/
theorem speak_noop_blank_or_disabled (text freshPath : String) (w : World) :
    (stripIsEmpty text = true →
       speak_async_spawns text w = false ∧
       speak_sync text freshPath w = (Except.ok false, w)) ∧
    (w.mgr.enabled = false →
       speak_async_spawns text w = false ∧
       speak_sync text freshPath w = (Except.ok false, w)) := by
  constructor
  · intro h
    constructor
    · unfold speak_async_spawns
      rw [if_pos (Or.inr h)]
    · unfold speak_sync
      rw [if_pos (Or.inr h)]
  · intro h
    constructor
    · unfold speak_async_spawns
      rw [if_pos (Or.inl h)]
    · unfold speak_sync
      rw [if_pos (Or.inl h)]

/-- Witness for claim C7: whitespace-only text on an enabled manager, and
normal text on a disabled manager, are both no-ops. -/
theorem speak_noop_blank_or_disabled_witness :
    (speak_sync " " "t.mp3" (mkW [SynthOutcome.writes 9] [] []) =
       (Except.ok false, mkW [SynthOutcome.writes 9] [] [])) ∧
    (speak_sync "hello" "t.mp3"
        { mkW [SynthOutcome.writes 9] [] [] with mgr := { mgr0 with enabled := false } } =
       (Except.ok false,
        { mkW [SynthOutcome.writes 9] [] [] with mgr := { mgr0 with enabled := false } })) :=
  ⟨((speak_noop_blank_or_disabled " " "t.mp3" (mkW [SynthOutcome.writes 9] [] [])).1
      (by decide)).2,
   ((speak_noop_blank_or_disabled "hello" "t.mp3"
      { mkW [SynthOutcome.writes 9] [] [] with mgr := { mgr0 with enabled := false } }).2
      rfl).2⟩

/-! ### Claim C8 -/

/-- Claim C8: the synchronous playback step returns false immediately (world
untouched) when the file does not exist; otherwise it consults the device,
returns false on a device-level error and true when loading and playback
proceeded, in which case it has polled the busy device at the fixed 100 ms
interval once per busy report; and it never raises. -/
theorem play_audio_sync_contract (p : String) (w : World) :
    (play_audio_sync p w).1.isOk = true ∧
    (fsExists w.fs p = false → play_audio_sync p w = (Except.ok false, w)) ∧
    (fsExists w.fs p = true →
       w.playOut.headD PlayOutcome.deviceError = PlayOutcome.deviceError →
       (play_audio_sync p w).1 = Except.ok false) ∧
    (∀ k, fsExists w.fs p = true →
       w.playOut.headD PlayOutcome.deviceError = PlayOutcome.ok k →
       (play_audio_sync p w).1 = Except.ok true ∧
       (play_audio_sync p w).2.sleeps = w.sleeps ++ List.replicate k 100) := by
  refine ⟨(play_audio_sync_world p w).1, ?_, ?_, ?_⟩
  · intro h
    exact play_audio_sync_missing h
  · intro hex hh
    rw [play_audio_sync_device_error hex hh]
  · intro k hex hh
    rw [play_audio_sync_plays hex hh]
    exact ⟨rfl, by rw [busyWait_sleeps]⟩

/-- Witness for claim C8: a missing file gives an immediate false; an
existing file with a device that stays busy for three polls gives true and
three recorded 100 ms sleeps. -/
theorem play_audio_sync_contract_witness :
    play_audio_sync "gone.mp3" (mkW [] [] []) = (Except.ok false, mkW [] [] []) ∧
    (play_audio_sync "t.mp3"
        { mkW [] [PlayOutcome.ok 3] [] with fs := [("t.mp3", 5)] }).1 = Except.ok true ∧
    (play_audio_sync "t.mp3"
        { mkW [] [PlayOutcome.ok 3] [] with fs := [("t.mp3", 5)] }).2.sleeps =
      [] ++ List.replicate 3 100 :=
  ⟨((play_audio_sync_contract "gone.mp3" (mkW [] [] [])).2.1 (by decide)),
   ((play_audio_sync_contract "t.mp3"
      { mkW [] [PlayOutcome.ok 3] [] with fs := [("t.mp3", 5)] }).2.2.2 3
      (by decide) (by decide)).1,
   ((play_audio_sync_contract "t.mp3"
      { mkW [] [PlayOutcome.ok 3] [] with fs := [("t.mp3", 5)] }).2.2.2 3
      (by decide) (by decide)).2⟩

/-! ### Claim C4 -/

/-- `_synthesize_async` never lets an exception escape. -/
theorem synthesize_async_isOk (text freshPath : String) (w : World) :
    (synthesize_async text freshPath w).1.isOk = true := by
  unfold synthesize_async
  split
  · rfl
  · split
    · rfl
    · split <;> rfl

/-- Claim C4: no public entry point propagates an exception to the host.
Construction is a total function into `MgrState` that downgrades `enabled`
to false when mixer init fails (and otherwise stores the configuration,
starting idle with no tracked files); `speak_sync`, the `speak_async`
worker, and `cleanup` always return an `Except.ok` result, for every world
and every behaviour of the capabilities. -/
theorem public_entry_points_never_throw :
    (∀ voice, (construct voice true InitOutcome.fails).enabled = false) ∧
    (∀ voice enabled, (construct voice enabled InitOutcome.succeeds).enabled = enabled) ∧
    (∀ voice enabled initOut, (construct voice enabled initOut).is_playing = false ∧
       (construct voice enabled initOut).temp_files = []) ∧
    (∀ text freshPath w, (speak_sync text freshPath w).1.isOk = true) ∧
    (∀ text freshPath w, (tts_worker text freshPath w).1.isOk = true) ∧
    (∀ w, (cleanup w).1.isOk = true) := by
  refine ⟨fun voice => rfl, ?_, ?_, ?_, ?_, fun w => rfl⟩
  · intro voice enabled
    cases enabled <;> rfl
  · intro voice enabled initOut
    cases enabled <;> cases initOut <;> exact ⟨rfl, rfl⟩
  · intro text freshPath w
    unfold speak_sync
    split
    · rfl
    · split
      · rfl
      · rfl
      · unfold speak_sync_play_and_delete
        split
        · rfl
        · split
          · rfl
          · split <;> rfl
  · intro text freshPath w
    unfold tts_worker
    split <;> rfl

/-! ### Claim C9 -/

/-- Claim C9: the asynchronous playback worker never raises, always leaves
`is_playing` false when it finishes — whatever the playback outcome — and,
whenever the artifact is tracked, present on disk and deletable, it deletes
the file and removes the path from `_temp_files`. -/
theorem play_audio_thread_contract (p : String) (w : World) :
    (play_audio_thread p w).1 = Except.ok () ∧
    (play_audio_thread p w).2.mgr.is_playing = false ∧
    (p ∈ w.mgr.temp_files → fsExists w.fs p = true → p ∉ w.unlinkFails →
       fsExists (play_audio_thread p w).2.fs p = false ∧
       (play_audio_thread p w).2.mgr.temp_files = w.mgr.temp_files.erase p) := by
  have hw := play_audio_sync_world p { w with mgr := { w.mgr with is_playing := true } }
  rcases hps : play_audio_sync p { w with mgr := { w.mgr with is_playing := true } }
    with ⟨r, w2⟩
  rw [hps] at hw
  dsimp only at hw
  obtain ⟨hok, hmgr, hfs, huf⟩ := hw
  cases r with
  | error e => simp [Except.isOk, Except.toBool] at hok
  | ok b =>
      have htf : w2.mgr.temp_files = w.mgr.temp_files := by rw [hmgr]
      unfold play_audio_thread
      rw [hps]
      dsimp only
      by_cases hmem : p ∈ w2.mgr.temp_files
      · rw [if_pos hmem]
        rcases hun : osUnlink p w2 with ⟨r2, w3⟩
        cases r2 with
        | error e2 =>
            dsimp only
            refine ⟨rfl, rfl, ?_⟩
            intro _ hex0 hdel0
            -- an unlink that raised can only have raised because the file
            -- was absent or undeletable; both contradict the hypotheses
            have hex2 : fsExists w2.fs p = true := by rw [hfs]; exact hex0
            have hdel2 : p ∉ w2.unlinkFails := by rw [huf]; exact hdel0
            rw [osUnlink_ok hex2 hdel2] at hun
            exact absurd (congrArg Prod.fst hun) (by simp)
        | ok u =>
            dsimp only
            refine ⟨rfl, rfl, ?_⟩
            intro _ hex0 hdel0
            have hex2 : fsExists w2.fs p = true := by rw [hfs]; exact hex0
            have hdel2 : p ∉ w2.unlinkFails := by rw [huf]; exact hdel0
            rw [osUnlink_ok hex2 hdel2] at hun
            have hw3 : w3 = { w2 with fs := fsRemove w2.fs p } :=
              (congrArg Prod.snd hun).symm
            subst hw3
            refine ⟨fsExists_fsRemove_self _ _, ?_⟩
            dsimp only
            rw [htf]
      · rw [if_neg hmem]
        dsimp only
        refine ⟨rfl, rfl, ?_⟩
        intro hmem0 _ _
        exact absurd (htf ▸ hmem0) hmem

/-- Witness for claim C9 at concrete inputs: a tracked, existing, deletable
artifact is deleted and untracked, and `is_playing` ends false. -/
theorem play_audio_thread_contract_witness :
    (play_audio_thread "t.mp3"
        { mkW [] [PlayOutcome.ok 1] [] with
            fs := [("t.mp3", 4)], mgr := { mgr0 with temp_files := ["t.mp3"] } }).2.mgr.is_playing
      = false ∧
    fsExists (play_audio_thread "t.mp3"
        { mkW [] [PlayOutcome.ok 1] [] with
            fs := [("t.mp3", 4)], mgr := { mgr0 with temp_files := ["t.mp3"] } }).2.fs "t.mp3"
      = false :=
  ⟨(play_audio_thread_contract "t.mp3"
      { mkW [] [PlayOutcome.ok 1] [] with
          fs := [("t.mp3", 4)], mgr := { mgr0 with temp_files := ["t.mp3"] } }).2.1,
   ((play_audio_thread_contract "t.mp3"
      { mkW [] [PlayOutcome.ok 1] [] with
          fs := [("t.mp3", 4)], mgr := { mgr0 with temp_files := ["t.mp3"] } }).2.2
      (by decide) (by decide) (by decide)).1⟩

/-! ### Cleanup lemmas -/

theorem cleanupStep_mgr (q : String) (w : World) : (cleanupStep q w).mgr = w.mgr := by
  unfold cleanupStep
  split
  · exact osUnlink_snd_mgr q w
  · rfl

theorem cleanupStep_unlinkFails (q : String) (w : World) :
    (cleanupStep q w).unlinkFails = w.unlinkFails := by
  unfold cleanupStep
  split
  · exact osUnlink_snd_unlinkFails q w
  · rfl

theorem fsExists_cleanupStep_le (q p : String) (w : World)
    (h : fsExists (cleanupStep q w).fs p = true) : fsExists w.fs p = true := by
  unfold cleanupStep at h
  split at h
  · exact fsExists_osUnlink_le q p w h
  · exact h

theorem cleanupStep_kills (q : String) (w : World) (hdel : q ∉ w.unlinkFails) :
    fsExists (cleanupStep q w).fs q = false := by
  unfold cleanupStep
  split
  · next hex => rw [osUnlink_ok hex hdel]; exact fsExists_fsRemove_self _ _
  · next hex => simpa using hex

theorem cleanupSweep_mgr (ps : List String) (w : World) :
    (cleanupSweep ps w).mgr = w.mgr := by
  induction ps generalizing w with
  | nil => rfl
  | cons q rest ih => rw [cleanupSweep, ih, cleanupStep_mgr]

theorem cleanupSweep_unlinkFails (ps : List String) (w : World) :
    (cleanupSweep ps w).unlinkFails = w.unlinkFails := by
  induction ps generalizing w with
  | nil => rfl
  | cons q rest ih => rw [cleanupSweep, ih, cleanupStep_unlinkFails]

theorem cleanupSweep_preserves_gone (ps : List String) (p : String) (w : World)
    (h : fsExists w.fs p = false) : fsExists (cleanupSweep ps w).fs p = false := by
  induction ps generalizing w with
  | nil => exact h
  | cons q rest ih =>
      rw [cleanupSweep]
      apply ih
      cases hc : fsExists (cleanupStep q w).fs p with
      | false => rfl
      | true => exact absurd (fsExists_cleanupStep_le q p w hc) (by simp [h])

theorem cleanupSweep_kills (ps : List String) (p : String) (w : World)
    (hmem : p ∈ ps) (hdel : p ∉ w.unlinkFails) :
    fsExists (cleanupSweep ps w).fs p = false := by
  induction ps generalizing w with
  | nil => cases hmem
  | cons q rest ih =>
      rw [cleanupSweep]
      rcases List.mem_cons.mp hmem with hq | hrest
      · subst hq
        exact cleanupSweep_preserves_gone rest p _ (cleanupStep_kills p w hdel)
      · exact ih (cleanupStep q w) hrest (by rw [cleanupStep_unlinkFails]; exact hdel)

/-! ### Claim C6 -/

/-- Claim C6: `cleanup` never raises (for every starting world, including an
empty tracked set), leaves `_temp_files` empty, and deletes every tracked
file whose deletion the OS permits — tracked files that were already
missing, and per-file deletion failures on other paths, do not prevent
this per-path guarantee, since the sweep visits every entry. -/
theorem cleanup_contract (w : World) :
    (cleanup w).1 = Except.ok () ∧
    (cleanup w).2.mgr.temp_files = [] ∧
    (∀ p, p ∈ w.mgr.temp_files → p ∉ w.unlinkFails →
       fsExists (cleanup w).2.fs p = false) := by
  refine ⟨rfl, rfl, ?_⟩
  intro p hmem hdel
  exact cleanupSweep_kills w.mgr.temp_files p w hmem hdel

/-- Witness for claim C6: a world tracking one existing file, one missing
file, and one undeletable file; after cleanup the tracked set is empty and
the deletable tracked file is gone. -/
theorem cleanup_contract_witness :
    (cleanup { mkW [] [] ["locked.mp3"] with
        fs := [("a.mp3", 3), ("locked.mp3", 9)],
        mgr := { mgr0 with temp_files := ["a.mp3", "gone.mp3", "locked.mp3"] } }).1
      = Except.ok () ∧
    (cleanup { mkW [] [] ["locked.mp3"] with
        fs := [("a.mp3", 3), ("locked.mp3", 9)],
        mgr := { mgr0 with temp_files := ["a.mp3", "gone.mp3", "locked.mp3"] } }).2.mgr.temp_files
      = [] ∧
    fsExists (cleanup { mkW [] [] ["locked.mp3"] with
        fs := [("a.mp3", 3), ("locked.mp3", 9)],
        mgr := { mgr0 with temp_files := ["a.mp3", "gone.mp3", "locked.mp3"] } }).2.fs "a.mp3"
      = false :=
  ⟨(cleanup_contract _).1, (cleanup_contract _).2.1,
   (cleanup_contract { mkW [] [] ["locked.mp3"] with
        fs := [("a.mp3", 3), ("locked.mp3", 9)],
        mgr := { mgr0 with temp_files := ["a.mp3", "gone.mp3", "locked.mp3"] } }).2.2
      "a.mp3" (by decide) (by decide)⟩

/-! ### Claim C10 -/

/-- Replacing an already-empty `temp_files` field by the empty list is the
identity. -/
theorem mgr_set_temp_files_nil_self (m : MgrState) (h : m.temp_files = []) :
    { m with temp_files := ([] : List String) } = m := by
  cases m
  simp_all

/-- `cleanup` on a world with no tracked files is the identity. -/
theorem cleanup_of_empty (w : World) (h : w.mgr.temp_files = []) :
    cleanup w = (Except.ok (), w) := by
  unfold cleanup
  rw [h]
  show (Except.ok (), { w with mgr := { w.mgr with temp_files := ([] : List String) } })
      = (Except.ok (), w)
  rw [mgr_set_temp_files_nil_self w.mgr h]

/-- Claim C10: `cleanup` is idempotent — on an already-empty tracked set it
changes nothing at all (same manager state, same filesystem, same world),
and running it twice from any world gives exactly the world of a single
run. -/
theorem cleanup_idempotent (w : World) :
    (w.mgr.temp_files = [] → cleanup w = (Except.ok (), w)) ∧
    cleanup (cleanup w).2 = (Except.ok (), (cleanup w).2) :=
  ⟨cleanup_of_empty w, cleanup_of_empty _ rfl⟩

/-- Witness for claim C10: a second cleanup after a first one from a world
with two tracked files changes nothing. -/
theorem cleanup_idempotent_witness :
    cleanup (mkW [] [] []) = (Except.ok (), mkW [] [] []) ∧
    cleanup (cleanup { mkW [] [] [] with
        fs := [("a.mp3", 3), ("b.mp3", 4)],
        mgr := { mgr0 with temp_files := ["a.mp3", "b.mp3"] } }).2
      = (Except.ok (), (cleanup { mkW [] [] [] with
          fs := [("a.mp3", 3), ("b.mp3", 4)],
          mgr := { mgr0 with temp_files := ["a.mp3", "b.mp3"] } }).2) :=
  ⟨(cleanup_idempotent (mkW [] [] [])).1 rfl,
   (cleanup_idempotent { mkW [] [] [] with
        fs := [("a.mp3", 3), ("b.mp3", 4)],
        mgr := { mgr0 with temp_files := ["a.mp3", "b.mp3"] } }).2⟩

/-! ### Claim C5 -/

/-- Claim C5, counterexample: when the deletion of the artifact fails at the
OS level (for example a PermissionError while the player still holds the
file, swallowed by the bare except), `speak_sync` still returns true, yet
the artifact file is still on disk and its path is still in `_temp_files`. -/
theorem speak_sync_true_can_leave_artifact :
    (speak_sync "hello" "t.mp3"
        (mkW [SynthOutcome.writes 100] [PlayOutcome.ok 2] ["t.mp3"])).1 = Except.ok true ∧
    fsExists (speak_sync "hello" "t.mp3"
        (mkW [SynthOutcome.writes 100] [PlayOutcome.ok 2] ["t.mp3"])).2.fs "t.mp3" = true ∧
    "t.mp3" ∈ (speak_sync "hello" "t.mp3"
        (mkW [SynthOutcome.writes 100] [PlayOutcome.ok 2] ["t.mp3"])).2.mgr.temp_files :=
  ⟨rfl, by decide, by decide⟩

/-- After playback (whatever its outcome), the deletion block of
`speak_sync` removes a tracked, existing, deletable artifact from disk and
from `_temp_files`. -/
theorem speak_sync_play_and_delete_deletes (path : String) (w1 : World)
    (hex : fsExists w1.fs path = true) (hdel : path ∉ w1.unlinkFails)
    (hmem : path ∈ w1.mgr.temp_files) (hnodup : path ∉ w1.mgr.temp_files.erase path) :
    fsExists (speak_sync_play_and_delete path w1).2.fs path = false ∧
    path ∉ (speak_sync_play_and_delete path w1).2.mgr.temp_files := by
  have hw := play_audio_sync_world path w1
  rcases hps : play_audio_sync path w1 with ⟨r, w2⟩
  rw [hps] at hw
  dsimp only at hw
  obtain ⟨hok, hmgr, hfs, huf⟩ := hw
  cases r with
  | error e => simp [Except.isOk, Except.toBool] at hok
  | ok b =>
      unfold speak_sync_play_and_delete
      rw [hps]
      dsimp only
      have hex2 : fsExists w2.fs path = true := by rw [hfs]; exact hex
      have hdel2 : path ∉ w2.unlinkFails := by rw [huf]; exact hdel
      rw [osUnlink_ok hex2 hdel2]
      dsimp only
      have hmem2 : path ∈ w2.mgr.temp_files := by rw [hmgr]; exact hmem
      rw [if_pos hmem2]
      refine ⟨fsExists_fsRemove_self _ _, ?_⟩
      dsimp only
      rw [hmgr]
      exact hnodup

/-- Claim C5, amended: for every `speak_sync` call that returns true, if the
artifact path was fresh (not already tracked) and its deletion is not
refused by the OS, then afterwards the artifact no longer exists on disk
and its path is absent from `_temp_files`; when the deletion fails the call
still returns true but file and tracking entry remain (see the
counterexample). -/
theorem speak_sync_true_deletes_artifact (text freshPath : String) (w : World)
    (hfresh : freshPath ∉ w.mgr.temp_files)
    (hdel : freshPath ∉ w.unlinkFails)
    (h : (speak_sync text freshPath w).1 = Except.ok true) :
    fsExists (speak_sync text freshPath w).2.fs freshPath = false ∧
    freshPath ∉ (speak_sync text freshPath w).2.mgr.temp_files := by
  by_cases hcond : w.mgr.enabled = false ∨ stripIsEmpty text = true
  · unfold speak_sync at h
    rw [if_pos hcond] at h
    exact absurd h (by simp)
  · have hne : stripIsEmpty text = false := by
      cases hb : stripIsEmpty text with
      | false => rfl
      | true => exact absurd (Or.inr hb) hcond
    unfold speak_sync at h ⊢
    rw [if_neg hcond] at h ⊢
    cases hh : w.synthOut.headD SynthOutcome.raises with
    | raises =>
        rw [synthesize_async_raises freshPath w hne hh] at h
        exact absurd h (by simp)
    | writes n =>
        rw [synthesize_async_writes freshPath w hne hh] at h ⊢
        cases n with
        | zero =>
            rw [if_neg (by omega)] at h
            exact absurd h (by simp)
        | succ m =>
            rw [if_pos (Nat.succ_pos m)] at h ⊢
            dsimp only at h ⊢
            -- the world handed to the playback-and-delete block
            refine speak_sync_play_and_delete_deletes freshPath
                { fs := fsSet (fsSet w.fs freshPath 0) freshPath (m + 1),
                  mgr := { voice := w.mgr.voice, enabled := w.mgr.enabled,
                           is_playing := w.mgr.is_playing,
                           temp_files := w.mgr.temp_files ++ [freshPath] },
                  synthCalls := w.synthCalls + 1, synthOut := w.synthOut.tail,
                  playCalls := w.playCalls, playOut := w.playOut,
                  unlinkFails := w.unlinkFails, sleeps := w.sleeps }
                (fsExists_fsSet_self _ _ _) hdel
                (List.mem_append_right _ (List.mem_singleton_self _)) ?_
            show freshPath ∉ (w.mgr.temp_files ++ [freshPath]).erase freshPath
            rw [erase_append_singleton_of_not_mem hfresh]
            exact hfresh

/-- Witness for the amended claim C5: a fresh, deletable artifact with a
successful synthesis and playback is deleted and untracked afterwards. -/
theorem speak_sync_true_deletes_artifact_witness :
    fsExists (speak_sync "hello" "t.mp3"
        (mkW [SynthOutcome.writes 100] [PlayOutcome.ok 2] [])).2.fs "t.mp3" = false ∧
    "t.mp3" ∉ (speak_sync "hello" "t.mp3"
        (mkW [SynthOutcome.writes 100] [PlayOutcome.ok 2] [])).2.mgr.temp_files :=
  speak_sync_true_deletes_artifact "hello" "t.mp3"
    (mkW [SynthOutcome.writes 100] [PlayOutcome.ok 2] [])
    (by decide) (by decide) rfl
